import Mathlib

/-!
Verification development for the `ha-security-sentinel` repository:
a shallow embedding of the brute-force detection pseudocode, the threat
scoring tables, the geolocation-enrichment data flow, and the Lovelace
card's JavaScript helpers, together with theorems settling the spec's
claims about them.
-/

namespace SecuritySentinel

/-! ## Severities and security events (README §4, §6.2) -/

/-- Event severities, as in the README severity tables. -/
inductive Severity where
  | low
  | medium
  | high
  | critical
deriving DecidableEq, Repr

/-- Modelled from the spec: `event_monitor.py` is not in the repository
snapshot; a security event carries an event type, source IP, severity and
timestamp (README §4, spec §3).  Timestamps are naturals (seconds). -/
structure SecurityEvent where
  event_type : String
  source_ip : String
  severity : Severity
  timestamp : Nat
deriving DecidableEq, Repr

/-! ## Brute-force detector (README §4.1 pseudocode)

`event_monitor.py` is not in the repository snapshot; the detector below is
modelled from the pseudocode in `src/README.md` §4.1, which the spec §4.1
repeats verbatim:

```
For each AUTH_FAILED(ip):
    timestamps[ip] = [ts for ts in timestamps[ip] if now - ts <= window]
    timestamps[ip].append(now)
    if len(timestamps[ip]) >= threshold:
        fire BRUTE_FORCE(ip)
        clear timestamps[ip]
```

Each source IP's window state is independent of every other IP's, so the
model tracks the timestamp list of a single IP. -/

/-- The purge step of README §4.1: keep exactly the stored instants `t`
with `now - t <= window` (Python's list comprehension filter). -/
def purgeWindow (window now : Nat) (ts : List Nat) : List Nat :=
  ts.filter (fun t => now - t ≤ window)

/-- The synthesized `BRUTE_FORCE` event; its severity is `critical` per the
README §4 event-type table. -/
def fireBruteForce (ip : String) (now : Nat) : SecurityEvent :=
  { event_type := "BRUTE_FORCE", source_ip := ip
    severity := Severity.critical, timestamp := now }

/-- One `AUTH_FAILED(ip)` step of the README §4.1 pseudocode: purge, append
`now`, and when the count reaches `threshold` fire `BRUTE_FORCE(ip)` and
clear the stored list. -/
def authFailedStep (window threshold : Nat) (ip : String) (ts : List Nat)
    (now : Nat) : List Nat × Option SecurityEvent :=
  let kept := purgeWindow window now ts ++ [now]
  if threshold ≤ kept.length then ([], some (fireBruteForce ip now))
  else (kept, none)

/-- Run the detector over a list of `AUTH_FAILED` instants for one IP,
returning the final stored list and, per input instant, the optional
synthesized event. -/
def runDetector (window threshold : Nat) (ip : String) :
    List Nat → List Nat → List Nat × List (Option SecurityEvent)
  | st, [] => (st, [])
  | st, now :: rest =>
    let step := authFailedStep window threshold ip st now
    let next := runDetector window threshold ip step.1 rest
    (next.1, step.2 :: next.2)

/-! ## Threat scorer (README §6.2 tables)

`coordinator.py` / `sensor.py` are not in the repository snapshot; the
scorer below is modelled from the spec's §4.3 and the README §6.2 tables. -/

/-- Per-event score from the README §6.2 severity table. -/
def severityWeight : Severity → Nat
  | Severity.low => 1
  | Severity.medium => 2
  | Severity.high => 5
  | Severity.critical => 10

/-- Total threat score: accumulate each retained event's severity weight. -/
def threatScore (events : List SecurityEvent) : Nat :=
  events.foldl (fun acc e => acc + severityWeight e.severity) 0

/-- Threat level from the README §6.2 total-score table:
0–3 low, 4–9 medium, 10–19 high, ≥ 20 critical. -/
def threatLevel (score : Nat) : Severity :=
  if score ≤ 3 then Severity.low
  else if score ≤ 9 then Severity.medium
  else if score ≤ 19 then Severity.high
  else Severity.critical

/-! ## Detector lemmas -/

theorem purgeWindow_eq_self (window now : Nat) (st : List Nat)
    (h : ∀ t ∈ st, now - t ≤ window) : purgeWindow window now st = st := by
  unfold purgeWindow
  rw [List.filter_eq_self]
  intro a ha
  simpa using h a ha

/-- An `AUTH_FAILED` step that stays below the threshold keeps the purged
instants plus the new one and emits nothing. -/
theorem authFailedStep_no_emit (window k : Nat) (ip : String) (st : List Nat)
    (now : Nat) (hpurge : purgeWindow window now st = st)
    (h : st.length + 1 < k) :
    authFailedStep window k ip st now = (st ++ [now], none) := by
  unfold authFailedStep
  rw [hpurge, if_neg (by simp; omega)]

/-- An `AUTH_FAILED` step that reaches the threshold emits the synthesized
brute-force event and clears the stored instants. -/
theorem authFailedStep_emit (window k : Nat) (ip : String) (st : List Nat)
    (now : Nat) (hpurge : purgeWindow window now st = st)
    (h : k ≤ st.length + 1) :
    authFailedStep window k ip st now = ([], some (fireBruteForce ip now)) := by
  unfold authFailedStep
  rw [hpurge, if_pos (by simp; omega)]

/-- While the accumulated count stays below the threshold, the detector
emits nothing and keeps every instant. -/
theorem runDetector_no_emit (window k : Nat) (ip : String) (st times : List Nat)
    (hst : ∀ a ∈ st, ∀ n ∈ times, n - a ≤ window)
    (hts : times.Pairwise (fun a b => a ≤ b ∧ b - a ≤ window))
    (hlen : st.length + times.length < k) :
    runDetector window k ip st times = (st ++ times, List.replicate times.length none) := by
  induction times generalizing st with
  | nil => simp [runDetector]
  | cons now rest ih =>
    have hpurge : purgeWindow window now st = st :=
      purgeWindow_eq_self _ _ _ (fun a ha => hst a ha now (by simp))
    have hstep := authFailedStep_no_emit window k ip st now hpurge
      (by simp only [List.length_cons] at hlen; omega)
    have hpair := List.pairwise_cons.mp hts
    have ihr := ih (st ++ [now])
      (by
        intro a ha n hn
        rcases List.mem_append.mp ha with h1 | h2
        · exact hst a h1 n (List.mem_cons_of_mem _ hn)
        · have : a = now := by simpa using h2
          subst this
          exact (hpair.1 n hn).2)
      hpair.2
      (by
        simp only [List.length_append, List.length_cons, List.length_nil]
        simp only [List.length_cons] at hlen
        omega)
    simp only [runDetector, hstep, ihr]
    simp [List.replicate_succ]

/-- When the count reaches the threshold exactly at instant `t`, the
detector emits the brute-force event there, emitted nothing on the `pre`
instants, and restarts from a cleared state on the remaining instants. -/
theorem runDetector_emit_split (window k : Nat) (ip : String)
    (st pre : List Nat) (t : Nat) (post : List Nat)
    (hst : ∀ a ∈ st, ∀ n ∈ pre ++ t :: post, n - a ≤ window)
    (hts : (pre ++ t :: post).Pairwise (fun a b => a ≤ b ∧ b - a ≤ window))
    (hlen : st.length + pre.length + 1 = k) :
    runDetector window k ip st (pre ++ t :: post) =
      ((runDetector window k ip [] post).1,
        List.replicate pre.length none
          ++ some (fireBruteForce ip t) :: (runDetector window k ip [] post).2) := by
  induction pre generalizing st with
  | nil =>
    have hpurge : purgeWindow window t st = st :=
      purgeWindow_eq_self _ _ _ (fun a ha => hst a ha t (by simp))
    have hstep := authFailedStep_emit window k ip st t hpurge
      (by simp only [List.length_nil] at hlen; omega)
    simp only [List.nil_append] at hts ⊢
    simp [runDetector, hstep]
  | cons p pre ih =>
    simp only [List.cons_append] at hst hts ⊢
    have hpurge : purgeWindow window p st = st :=
      purgeWindow_eq_self _ _ _ (fun a ha => hst a ha p (by simp))
    have hstep := authFailedStep_no_emit window k ip st p hpurge
      (by simp only [List.length_cons] at hlen; omega)
    have hpair := List.pairwise_cons.mp hts
    have ihr := ih (st ++ [p])
      (by
        intro a ha n hn
        rcases List.mem_append.mp ha with h1 | h2
        · exact hst a h1 n (List.mem_cons_of_mem _ hn)
        · have : a = p := by simpa using h2
          subst this
          exact (hpair.1 n hn).2)
      hpair.2
      (by
        simp only [List.length_append, List.length_cons, List.length_nil]
        simp only [List.length_cons] at hlen
        omega)
    simp only [runDetector, hstep, ihr]
    simp [List.replicate_succ]

/-! ## Theorems for the detector purge (claim C2) and the scorer (C3) -/

theorem threatScore_foldl_eq_sum (events : List SecurityEvent) (n : Nat) :
    events.foldl (fun acc e => acc + severityWeight e.severity) n
      = n + (events.map (fun e => severityWeight e.severity)).sum := by
  induction events generalizing n with
  | nil => simp
  | cons e rest ih =>
    simp only [List.foldl_cons, List.map_cons, List.sum_cons]
    rw [ih]
    omega

/-- C1: for a sequence of `auth-failed` instants from one IP that all fall
inside the trailing window of each other (`hts`), with the threshold first
reached at instant `t` (after the `pre.length = threshold - 1` earlier
instants), the detector emits no event on the `pre` instants, emits exactly
one synthesized brute-force event at `t` with severity fixed to `critical`,
and immediately restarts from a cleared stored sequence on the remaining
instants `post` — so a second brute-force event requires accumulating a
full new threshold-count of failures. -/
theorem bruteforce_single_emission (window k : Nat) (ip : String)
    (pre : List Nat) (t : Nat) (post : List Nat)
    (hk : pre.length + 1 = k)
    (hts : (pre ++ t :: post).Pairwise (fun a b => a ≤ b ∧ b - a ≤ window)) :
    runDetector window k ip [] (pre ++ t :: post) =
      ((runDetector window k ip [] post).1,
        List.replicate pre.length none
          ++ some (fireBruteForce ip t) :: (runDetector window k ip [] post).2) ∧
    (fireBruteForce ip t).severity = Severity.critical ∧
    (runDetector window k ip [] pre).2 = List.replicate pre.length none := by
  refine ⟨?_, rfl, ?_⟩
  · exact runDetector_emit_split window k ip [] pre t post (by simp) hts
      (by simpa using hk)
  · have hpre : pre.Pairwise (fun a b => a ≤ b ∧ b - a ≤ window) :=
      hts.sublist (List.sublist_append_left _ _)
    rw [runDetector_no_emit window k ip [] pre (by simp) hpre (by simp; omega)]

theorem bruteforce_single_emission_witness :
    runDetector 60 5 "203.0.113.5" [] ([0, 1, 2, 3] ++ 4 :: []) =
      ((runDetector 60 5 "203.0.113.5" [] []).1,
        List.replicate [0, 1, 2, 3].length none
          ++ some (fireBruteForce "203.0.113.5" 4)
            :: (runDetector 60 5 "203.0.113.5" [] []).2) ∧
    (fireBruteForce "203.0.113.5" 4).severity = Severity.critical ∧
    (runDetector 60 5 "203.0.113.5" [] [0, 1, 2, 3]).2 =
      List.replicate [0, 1, 2, 3].length none :=
  bruteforce_single_emission 60 5 "203.0.113.5" [0, 1, 2, 3] 4 []
    (by decide) (by decide)

/-- C2 (counterexample): the claim says an instant whose age is exactly
`window_duration` is excluded by the purge, but the README §4.1 filter keeps
every instant with `now - t <= window`: with `window = 60`, the instant `0`
at `now = 60` has age exactly the window and is retained. -/
theorem purgeWindow_boundary_counterexample :
    purgeWindow 60 60 [0] = [0] ∧ (0 : Nat) ∈ purgeWindow 60 60 [0] := by
  constructor
  · rfl
  · decide

/-- C2 (amended): in every purge at time `now`, an instant of age strictly
greater than `window` is excluded, and an instant of age at most `window`
(hence also one of age exactly `window`) is retained. -/
theorem purgeWindow_age_bound (window now t : Nat) (ts : List Nat) :
    (window < now - t → t ∉ purgeWindow window now ts) ∧
    (t ∈ ts → now - t ≤ window → t ∈ purgeWindow window now ts) := by
  constructor
  · intro hgt hmem
    have := List.of_mem_filter hmem
    simp only [decide_eq_true_eq] at this
    omega
  · intro hmem hle
    exact List.mem_filter.mpr ⟨hmem, by simpa using hle⟩

theorem purgeWindow_age_bound_witness :
    (100 ∉ purgeWindow 60 200 [100, 140]) ∧
      (140 ∈ purgeWindow 60 200 [100, 140]) :=
  ⟨(purgeWindow_age_bound 60 200 100 [100, 140]).1 (by decide),
   (purgeWindow_age_bound 60 200 140 [100, 140]).2 (by decide) (by decide)⟩

/-- C3: the threat score of a retained history is the sum of the per-event
severity weights (low = 1, medium = 2, high = 5, critical = 10), and the
derived level is low exactly on scores 0–3, medium exactly on 4–9, high
exactly on 10–19, and critical exactly on scores ≥ 20. -/
theorem threatScore_sum_and_level_thresholds (events : List SecurityEvent)
    (s : Nat) :
    threatScore events = (events.map (fun e => severityWeight e.severity)).sum ∧
    (threatLevel s = Severity.low ↔ s ≤ 3) ∧
    (threatLevel s = Severity.medium ↔ 4 ≤ s ∧ s ≤ 9) ∧
    (threatLevel s = Severity.high ↔ 10 ≤ s ∧ s ≤ 19) ∧
    (threatLevel s = Severity.critical ↔ 20 ≤ s) := by
  refine ⟨?_, ?_, ?_, ?_, ?_⟩
  · simpa using threatScore_foldl_eq_sum events 0
  all_goals
    unfold threatLevel
    split_ifs <;> simp_all <;> omega

/-! ## Geolocation enrichment (README §5.1 data flow, spec §4.2)

`geo_lookup.py` is not in the repository snapshot; the enricher below is
modelled from the spec: the README §5.1 data-flow diagram (private-range
check, 1-hour TTL cache, ip-api.com primary with ipinfo.io fallback,
`{"country": "Unknown"}` on double failure) completed by spec §4.2, which
states that the double-failure "Unknown" record is itself cached and that a
stale cache entry is treated as absent.  Remote providers are modelled as
oracle responses (`Option GeoRecord`, `none` meaning any provider failure),
and the private-range test as an oracle predicate on the IP string; the
result records which providers were called, in order. -/

/-- A geolocation record (README §5.2 enriched fields); fields a provider
omits stay unset. -/
structure GeoRecord where
  country : String
  country_code : Option String := none
  region : Option String := none
  city : Option String := none
  org : Option String := none
  isp : Option String := none
  lat : Option Int := none
  lon : Option Int := none
  timezone : Option String := none
deriving DecidableEq, Repr

/-- The fixed record returned for private/loopback/link-local/reserved
addresses. -/
def localRecord : GeoRecord := { country := "Local" }

/-- The minimal record returned when both providers fail. -/
def unknownRecord : GeoRecord := { country := "Unknown" }

/-- A cache entry: looked-up IP, insertion instant, record. -/
structure CacheEntry where
  ip : String
  insertedAt : Nat
  record : GeoRecord
deriving DecidableEq, Repr

/-- Cache TTL: 1 hour (README §5.1). -/
def geoTTL : Nat := 3600

/-- TTL-aware cache read: an entry older than the TTL is treated as
absent (spec §3 CacheEntry invariant). -/
def cacheGet (cache : List CacheEntry) (now : Nat) (ip : String) :
    Option GeoRecord :=
  match cache.find? (fun e => e.ip == ip) with
  | some e => if now - e.insertedAt ≤ geoTTL then some e.record else none
  | none => none

/-- Cache insertion with the current instant; the new entry shadows any
older entry for the same IP. -/
def cacheInsert (cache : List CacheEntry) (ip : String) (now : Nat)
    (record : GeoRecord) : List CacheEntry :=
  { ip := ip, insertedAt := now, record := record } :: cache

/-- The two remote providers, in fallback order (README §5.1:
ip-api.com primary, ipinfo.io secondary). -/
inductive Provider where
  | primary
  | secondary
deriving DecidableEq, Repr

/-- Outcome of one `lookup` call: the returned record, the cache after the
call, and the remote providers called, in order. -/
structure LookupResult where
  record : GeoRecord
  cache : List CacheEntry
  calls : List Provider
deriving DecidableEq, Repr

/-- Modelled from the spec: `GeoEnricher.lookup` (`geo_lookup.py` is not in
the repository snapshot), following README §5.1 and spec §4.2 steps 1–5:
private-range short-circuit, TTL cache hit, primary provider, secondary
provider on primary failure, and a cached `"Unknown"` record when both
fail. -/
def lookup (isPrivate : String → Bool) (cache : List CacheEntry) (now : Nat)
    (ip : String) (primaryResp secondaryResp : Option GeoRecord) :
    LookupResult :=
  if isPrivate ip then { record := localRecord, cache := cache, calls := [] }
  else
    match cacheGet cache now ip with
    | some r => { record := r, cache := cache, calls := [] }
    | none =>
      match primaryResp with
      | some r =>
        { record := r, cache := cacheInsert cache ip now r
          calls := [Provider.primary] }
      | none =>
        match secondaryResp with
        | some r =>
          { record := r, cache := cacheInsert cache ip now r
            calls := [Provider.primary, Provider.secondary] }
        | none =>
          { record := unknownRecord
            cache := cacheInsert cache ip now unknownRecord
            calls := [Provider.primary, Provider.secondary] }

/-- C4: on a non-private, non-cached lookup whose primary provider call
fails, the secondary provider is attempted, after the primary and before
any "Unknown" result; and when the secondary also fails, the returned
record has `country = "Unknown"` and is inserted into the cache under the
looked-up IP. -/
theorem lookup_fallback_unknown_cached (isPrivate : String → Bool)
    (cache : List CacheEntry) (now : Nat) (ip : String)
    (secondaryResp : Option GeoRecord)
    (hpriv : isPrivate ip = false)
    (hmiss : cacheGet cache now ip = none) :
    (lookup isPrivate cache now ip none secondaryResp).calls =
      [Provider.primary, Provider.secondary] ∧
    (secondaryResp = none →
      (lookup isPrivate cache now ip none secondaryResp).record.country
          = "Unknown" ∧
      (lookup isPrivate cache now ip none secondaryResp).record
          = unknownRecord ∧
      cacheGet (lookup isPrivate cache now ip none secondaryResp).cache now ip
          = some unknownRecord) := by
  unfold lookup
  rw [hpriv, hmiss]
  cases secondaryResp with
  | none =>
    refine ⟨rfl, fun _ => ⟨rfl, rfl, ?_⟩⟩
    simp [cacheGet, cacheInsert, List.find?]
  | some r =>
    exact ⟨rfl, fun h => by cases h⟩

theorem lookup_fallback_unknown_cached_witness :
    (lookup (fun _ => false) [] 0 "203.0.113.5" none none).calls =
      [Provider.primary, Provider.secondary] ∧
    ((none : Option GeoRecord) = none →
      (lookup (fun _ => false) [] 0 "203.0.113.5" none none).record.country
          = "Unknown" ∧
      (lookup (fun _ => false) [] 0 "203.0.113.5" none none).record
          = unknownRecord ∧
      cacheGet (lookup (fun _ => false) [] 0 "203.0.113.5" none none).cache 0
          "203.0.113.5" = some unknownRecord) :=
  lookup_fallback_unknown_cached (fun _ => false) [] 0 "203.0.113.5" none
    rfl rfl

/-- C5: for a private/loopback/link-local/reserved address, `lookup`
returns the fixed "Local" record immediately, calls no remote provider,
and leaves the cache unchanged (so no cache entry is created). -/
theorem lookup_private_local (isPrivate : String → Bool)
    (cache : List CacheEntry) (now : Nat) (ip : String)
    (primaryResp secondaryResp : Option GeoRecord)
    (hpriv : isPrivate ip = true) :
    lookup isPrivate cache now ip primaryResp secondaryResp =
      { record := localRecord, cache := cache, calls := [] } ∧
    localRecord.country = "Local" := by
  unfold lookup
  rw [hpriv]
  exact ⟨rfl, rfl⟩

theorem lookup_private_local_witness :
    lookup (fun ip => ip == "10.0.0.5") [] 7 "10.0.0.5" none none =
      { record := localRecord, cache := [], calls := [] } ∧
    localRecord.country = "Local" :=
  lookup_private_local (fun ip => ip == "10.0.0.5") [] 7 "10.0.0.5"
    none none rfl

/-- On a cache hit (non-private IP), `lookup` returns the cached record,
leaves the cache unchanged and calls no provider. -/
theorem lookup_cache_hit (isPrivate : String → Bool)
    (cache : List CacheEntry) (now : Nat) (ip : String)
    (p s : Option GeoRecord) (r : GeoRecord)
    (hpriv : isPrivate ip = false)
    (hhit : cacheGet cache now ip = some r) :
    lookup isPrivate cache now ip p s =
      { record := r, cache := cache, calls := [] } := by
  unfold lookup
  rw [hpriv, hhit]
  simp

/-- On a cache miss (non-private IP), whatever the providers answer, the
record `lookup` returns is inserted into the cache at the current
instant. -/
theorem lookup_miss_caches_record (isPrivate : String → Bool)
    (cache : List CacheEntry) (now : Nat) (ip : String)
    (p s : Option GeoRecord)
    (hpriv : isPrivate ip = false)
    (hmiss : cacheGet cache now ip = none) :
    (lookup isPrivate cache now ip p s).cache =
      cacheInsert cache ip now (lookup isPrivate cache now ip p s).record := by
  unfold lookup
  rw [hpriv, hmiss]
  cases p <;> cases s <;> simp

/-- C6: for a non-private IP with no prior cache entry, a second `lookup`
within the TTL of the first returns exactly the record the first call
returned — whatever the providers answer on either call — and issues no
remote provider call. -/
theorem lookup_idempotent_within_ttl (isPrivate : String → Bool)
    (cache : List CacheEntry) (now1 now2 : Nat) (ip : String)
    (p1 s1 p2 s2 : Option GeoRecord)
    (hpriv : isPrivate ip = false)
    (hmiss : cache.find? (fun e => e.ip == ip) = none)
    (httl : now2 - now1 ≤ geoTTL) :
    (lookup isPrivate (lookup isPrivate cache now1 ip p1 s1).cache now2 ip
        p2 s2).record = (lookup isPrivate cache now1 ip p1 s1).record ∧
    (lookup isPrivate (lookup isPrivate cache now1 ip p1 s1).cache now2 ip
        p2 s2).calls = [] := by
  have hmiss1 : cacheGet cache now1 ip = none := by
    unfold cacheGet
    rw [hmiss]
  have hc := lookup_miss_caches_record isPrivate cache now1 ip p1 s1
    hpriv hmiss1
  have hhit2 : cacheGet (lookup isPrivate cache now1 ip p1 s1).cache now2 ip
      = some (lookup isPrivate cache now1 ip p1 s1).record := by
    rw [hc]
    unfold cacheGet cacheInsert
    simp [List.find?, httl]
  rw [lookup_cache_hit isPrivate _ now2 ip p2 s2 _ hpriv hhit2]
  exact ⟨rfl, rfl⟩

theorem lookup_idempotent_within_ttl_witness :
    (lookup (fun _ => false)
        (lookup (fun _ => false) [] 0 "203.0.113.5"
          (some { country := "France", city := some "Paris" }) none).cache
        60 "203.0.113.5" none none).record =
      (lookup (fun _ => false) [] 0 "203.0.113.5"
        (some { country := "France", city := some "Paris" }) none).record ∧
    (lookup (fun _ => false)
        (lookup (fun _ => false) [] 0 "203.0.113.5"
          (some { country := "France", city := some "Paris" }) none).cache
        60 "203.0.113.5" none none).calls = [] :=
  lookup_idempotent_within_ttl (fun _ => false) [] 0 60 "203.0.113.5"
    (some { country := "France", city := some "Paris" }) none none none
    rfl rfl (by decide)

/-! ## Lovelace card (`src/lovelace/security-sentinel-card.js`)

The card reads Home Assistant state objects.  A hass object is modelled as
an association list from entity id to state object; a state object carries
its `state` string and the card-relevant attributes (`total_events_loaded`
of the threat-level sensor, `recent_events` of the failed-logins sensor),
with `none` for an absent attribute.  JavaScript numbers that the card uses
as counts are modelled as `Int`. -/

/-- One entry of a sensor's `recent_events` attribute, with the fields the
card reads. -/
structure CardEvent where
  event_type : String
  ip : String
  severity : String
  timestamp : String
deriving DecidableEq, Repr

/-- A hass state object as the card consumes it. -/
structure SensorState where
  state : String
  total_events_loaded : Option Int := none
  recent_events : Option (List CardEvent) := none
deriving DecidableEq, Repr

def threatSensorId : String := "sensor.security_sentinel_threat_level"

def failedSensorId : String := "sensor.security_sentinel_failed_logins"

/-- `_state(id)`: `this._hass?.states?.[id] || null` — look the entity id up
in the states map. -/
def stateOf (states : List (String × SensorState)) (id : String) :
    Option SensorState :=
  (states.find? (fun p => p.1 == id)).map Prod.snd

/-- The "Total Events" stat of `_render`:
`threatSensor?.attributes?.total_events_loaded ?? 0`. -/
def totalEventsRendered (states : List (String × SensorState)) : Int :=
  match stateOf states threatSensorId with
  | none => 0
  | some s => s.total_events_loaded.getD 0

/-- The normalized configuration stored by `setConfig`, as `_getEvents`
reads it. -/
structure CardConfig where
  title : String
  max_events : Int
  severity_filter : List String
deriving DecidableEq, Repr

/-- JavaScript `list.slice(0, e)` for an integer `e`: a negative `e` counts
from the end of the list. -/
def jsSliceTo {α : Type} (l : List α) (e : Int) : List α :=
  if 0 ≤ e then l.take e.toNat else l.take (l.length - (-e).toNat)

/-- The raw `recent_events` list `_getEvents` starts from:
`s?.attributes?.recent_events || []`. -/
def cardRawEvents (states : List (String × SensorState)) : List CardEvent :=
  ((stateOf states failedSensorId).bind (fun s => s.recent_events)).getD []

/-- The severity filter of `_getEvents`, applied only when
`severity_filter` is non-empty. -/
def cardFiltered (states : List (String × SensorState)) (cfg : CardConfig) :
    List CardEvent :=
  if cfg.severity_filter.length ≠ 0 then
    (cardRawEvents states).filter
      (fun e => cfg.severity_filter.contains e.severity)
  else cardRawEvents states

/-- `_getEvents()`: filter by severity, then `slice(0, max_events)`. -/
def getEvents (states : List (String × SensorState)) (cfg : CardConfig) :
    List CardEvent :=
  jsSliceTo (cardFiltered states cfg) cfg.max_events

/-- C7: the "Total Events" value the card renders is the
`total_events_loaded` attribute of `sensor.security_sentinel_threat_level`,
and `0` when that sensor or that attribute is absent. -/
theorem totalEvents_from_snapshot (states : List (String × SensorState)) :
    (∀ s v, stateOf states threatSensorId = some s →
      s.total_events_loaded = some v → totalEventsRendered states = v) ∧
    (stateOf states threatSensorId = none → totalEventsRendered states = 0) ∧
    (∀ s, stateOf states threatSensorId = some s →
      s.total_events_loaded = none → totalEventsRendered states = 0) := by
  refine ⟨?_, ?_, ?_⟩
  · intro s v hs hv
    simp [totalEventsRendered, hs, hv]
  · intro hs
    simp [totalEventsRendered, hs]
  · intro s hs hv
    simp [totalEventsRendered, hs, hv]

theorem totalEvents_from_snapshot_witness :
    totalEventsRendered
        [(threatSensorId, { state := "high", total_events_loaded := some 42 })]
      = 42 :=
  (totalEvents_from_snapshot
      [(threatSensorId, { state := "high", total_events_loaded := some 42 })]).1
    { state := "high", total_events_loaded := some 42 } 42 rfl rfl

/-- C8 (counterexample): the claim quantifies over every card
configuration, but `setConfig` accepts a negative `max_events` (for example
`max_events: -1`, via `Number(config.max_events) || 10`), and JavaScript's
`slice(0, -1)` then keeps all but the last entry instead of the first
`max_events` entries: with two stored events the card displays one event,
so the displayed length is not at most `max_events`. -/
theorem getEvents_neg_max_counterexample :
    getEvents
        [(failedSensorId,
          { state := "2"
            recent_events := some
              [{ event_type := "AUTH_FAILED", ip := "1.2.3.4"
                 severity := "medium", timestamp := "t1" },
               { event_type := "BRUTE_FORCE", ip := "1.2.3.4"
                 severity := "critical", timestamp := "t2" }] })]
        { title := "Security Sentinel", max_events := -1
          severity_filter := [] } =
      [{ event_type := "AUTH_FAILED", ip := "1.2.3.4"
         severity := "medium", timestamp := "t1" }] ∧
    ¬ ((1 : Int) ≤ -1) := by
  constructor
  · rfl
  · decide

/-- C8 (amended): for every configuration whose `max_events` is
non-negative, the displayed list is the first `max_events` entries of the
severity-filtered `recent_events` list of
`sensor.security_sentinel_failed_logins` (filter applied only when
`severity_filter` is non-empty); hence it has length at most `max_events`,
is a prefix of the filtered list, and is a sublist (order-preserving) of
the snapshot list. -/
theorem getEvents_filter_take (states : List (String × SensorState))
    (cfg : CardConfig) (hnn : 0 ≤ cfg.max_events) :
    getEvents states cfg = (cardFiltered states cfg).take cfg.max_events.toNat ∧
    ((getEvents states cfg).length : Int) ≤ cfg.max_events ∧
    (∃ rest, cardFiltered states cfg = getEvents states cfg ++ rest) ∧
    List.Sublist (getEvents states cfg) (cardRawEvents states) := by
  have htake : getEvents states cfg
      = (cardFiltered states cfg).take cfg.max_events.toNat := by
    unfold getEvents jsSliceTo
    rw [if_pos hnn]
  refine ⟨htake, ?_, ?_, ?_⟩
  · rw [htake]
    have hlen := List.length_take_le cfg.max_events.toNat (cardFiltered states cfg)
    have := Int.toNat_of_nonneg hnn
    omega
  · exact ⟨(cardFiltered states cfg).drop cfg.max_events.toNat,
      by rw [htake, List.take_append_drop]⟩
  · have h1 : List.Sublist (getEvents states cfg) (cardFiltered states cfg) := by
      rw [htake]
      exact List.take_sublist _ _
    have h2 : List.Sublist (cardFiltered states cfg) (cardRawEvents states) := by
      unfold cardFiltered
      split
      · exact List.filter_sublist _
      · exact List.Sublist.refl _
    exact h1.trans h2

theorem getEvents_filter_take_witness :
    getEvents
        [(failedSensorId,
          { state := "2"
            recent_events := some
              [{ event_type := "AUTH_FAILED", ip := "1.2.3.4"
                 severity := "medium", timestamp := "t1" },
               { event_type := "BRUTE_FORCE", ip := "1.2.3.4"
                 severity := "critical", timestamp := "t2" }] })]
        { title := "Security Sentinel", max_events := 1
          severity_filter := ["critical"] } =
      (cardFiltered
        [(failedSensorId,
          { state := "2"
            recent_events := some
              [{ event_type := "AUTH_FAILED", ip := "1.2.3.4"
                 severity := "medium", timestamp := "t1" },
               { event_type := "BRUTE_FORCE", ip := "1.2.3.4"
                 severity := "critical", timestamp := "t2" }] })]
        { title := "Security Sentinel", max_events := 1
          severity_filter := ["critical"] }).take ((1 : Int)).toNat ∧
    ((getEvents
        [(failedSensorId,
          { state := "2"
            recent_events := some
              [{ event_type := "AUTH_FAILED", ip := "1.2.3.4"
                 severity := "medium", timestamp := "t1" },
               { event_type := "BRUTE_FORCE", ip := "1.2.3.4"
                 severity := "critical", timestamp := "t2" }] })]
        { title := "Security Sentinel", max_events := 1
          severity_filter := ["critical"] }).length : Int) ≤ 1 ∧
    (∃ rest, cardFiltered
        [(failedSensorId,
          { state := "2"
            recent_events := some
              [{ event_type := "AUTH_FAILED", ip := "1.2.3.4"
                 severity := "medium", timestamp := "t1" },
               { event_type := "BRUTE_FORCE", ip := "1.2.3.4"
                 severity := "critical", timestamp := "t2" }] })]
        { title := "Security Sentinel", max_events := 1
          severity_filter := ["critical"] } =
      getEvents
        [(failedSensorId,
          { state := "2"
            recent_events := some
              [{ event_type := "AUTH_FAILED", ip := "1.2.3.4"
                 severity := "medium", timestamp := "t1" },
               { event_type := "BRUTE_FORCE", ip := "1.2.3.4"
                 severity := "critical", timestamp := "t2" }] })]
        { title := "Security Sentinel", max_events := 1
          severity_filter := ["critical"] } ++ rest) ∧
    List.Sublist
      (getEvents
        [(failedSensorId,
          { state := "2"
            recent_events := some
              [{ event_type := "AUTH_FAILED", ip := "1.2.3.4"
                 severity := "medium", timestamp := "t1" },
               { event_type := "BRUTE_FORCE", ip := "1.2.3.4"
                 severity := "critical", timestamp := "t2" }] })]
        { title := "Security Sentinel", max_events := 1
          severity_filter := ["critical"] })
      (cardRawEvents
        [(failedSensorId,
          { state := "2"
            recent_events := some
              [{ event_type := "AUTH_FAILED", ip := "1.2.3.4"
                 severity := "medium", timestamp := "t1" },
               { event_type := "BRUTE_FORCE", ip := "1.2.3.4"
                 severity := "critical", timestamp := "t2" }] })]) :=
  getEvents_filter_take
    [(failedSensorId,
      { state := "2"
        recent_events := some
          [{ event_type := "AUTH_FAILED", ip := "1.2.3.4"
             severity := "medium", timestamp := "t1" },
           { event_type := "BRUTE_FORCE", ip := "1.2.3.4"
             severity := "critical", timestamp := "t2" }] })]
    { title := "Security Sentinel", max_events := 1
      severity_filter := ["critical"] }
    (by decide)

/-! ## `countryFlag` (card lines 14–20)

`countryFlag(code)` returns the globe emoji for a null, empty or
single-character code, and otherwise maps the first two characters of the
upper-cased code to Unicode regional-indicator code points.  A possibly
null/undefined argument is modelled as `Option String`; JavaScript's
`toUpperCase` is modelled per character by core's ASCII `Char.toUpper`,
and `String.fromCodePoint` by `Char.ofNat`. -/

def globeEmoji : String := "🌍"

/-- `toUpperCase()`, character by character. -/
def jsToUpperCase (s : String) : String :=
  String.mk (s.data.map Char.toUpper)

/-- One regional-indicator code point:
`0x1F1E6 + ch.charCodeAt(0) - 65`. -/
def regionalIndicator (c : Char) : Char :=
  Char.ofNat (0x1F1E6 + c.toNat - 65)

/-- `countryFlag` from the card: globe emoji when the code is null or
shorter than two characters, otherwise the regional indicators of the
first two characters of the upper-cased code. -/
def countryFlag (code : Option String) : String :=
  match code with
  | none => globeEmoji
  | some s =>
    if s.length < 2 then globeEmoji
    else String.mk (((jsToUpperCase s).data.take 2).map regionalIndicator)

theorem toNat_ofNat_of_lt (n : Nat) (h : n < 0xd800) :
    (Char.ofNat n).toNat = n := by
  have hv : n.isValidChar := Or.inl h
  rw [Char.ofNat, dif_pos hv]
  rfl

theorem toUpper_idem (c : Char) :
    Char.toUpper (Char.toUpper c) = Char.toUpper c := by
  by_cases h : c.toNat ≥ 97 ∧ c.toNat ≤ 122
  · have h1 : Char.toUpper c = Char.ofNat (c.toNat - 32) := by
      simp only [Char.toUpper]
      rw [if_pos h]
    have ht : (Char.ofNat (c.toNat - 32)).toNat = c.toNat - 32 :=
      toNat_ofNat_of_lt _ (by omega)
    rw [h1]
    simp only [Char.toUpper]
    rw [if_neg (by rw [ht]; omega)]
  · have h1 : Char.toUpper c = c := by
      simp only [Char.toUpper]
      rw [if_neg h]
    rw [h1, h1]

/-- For a code of length at least two, `countryFlag` maps the first two
characters, upper-cased, to regional indicators. -/
theorem countryFlag_eq_of_two_le (s : String) (hs : 2 ≤ s.length) :
    countryFlag (some s)
      = String.mk ((s.data.take 2).map
          (fun ch => regionalIndicator (Char.toUpper ch))) := by
  have hlt : ¬ s.length < 2 := by omega
  simp only [countryFlag, if_neg hlt, jsToUpperCase]
  rw [show ((s.data.map Char.toUpper).take 2)
      = (s.data.take 2).map Char.toUpper from (List.map_take _ _ _).symm]
  rw [List.map_map]
  rfl

/-- C10: `countryFlag` is total on its (possibly null) string argument; it
returns the globe emoji for a null, empty or single-character input, and
for an input of length at least two it depends only on the first two
characters up to case — it agrees with `countryFlag` of the upper-cased
first two characters — and consists of the regional-indicator code points
`0x1F1E6 + charCode - 65` of those upper-cased characters. -/
theorem countryFlag_first_two_upper :
    countryFlag none = globeEmoji ∧
    (∀ s : String, s.length < 2 → countryFlag (some s) = globeEmoji) ∧
    (∀ s : String, 2 ≤ s.length →
      countryFlag (some s)
          = countryFlag (some (jsToUpperCase (String.mk (s.data.take 2)))) ∧
      countryFlag (some s)
          = String.mk ((s.data.take 2).map
              (fun ch => Char.ofNat (0x1F1E6 + (Char.toUpper ch).toNat - 65)))) := by
  refine ⟨rfl, ?_, ?_⟩
  · intro s hs
    simp only [countryFlag, if_pos hs]
  · intro s hs
    have hdata : s.length = s.data.length := rfl
    refine ⟨?_, by rw [countryFlag_eq_of_two_le s hs]; rfl⟩
    have htk : (s.data.take 2).length = 2 := by
      rw [List.length_take]
      omega
    have hu : (jsToUpperCase (String.mk (s.data.take 2))).length = 2 := by
      show ((s.data.take 2).map Char.toUpper).length = 2
      rw [List.length_map]
      exact htk
    rw [countryFlag_eq_of_two_le s hs,
      countryFlag_eq_of_two_le (jsToUpperCase (String.mk (s.data.take 2)))
        (by omega)]
    show String.mk ((s.data.take 2).map
        (fun ch => regionalIndicator (Char.toUpper ch)))
      = String.mk ((((s.data.take 2).map Char.toUpper).take 2).map
          (fun ch => regionalIndicator (Char.toUpper ch)))
    have htake2 : ((s.data.take 2).map Char.toUpper).take 2
        = (s.data.take 2).map Char.toUpper :=
      List.take_of_length_le (by rw [List.length_map]; omega)
    rw [htake2, List.map_map]
    congr 1
    apply List.map_congr_left
    intro a _
    simp only [Function.comp_apply, toUpper_idem]

theorem countryFlag_first_two_upper_witness :
    countryFlag (some "us")
        = countryFlag (some (jsToUpperCase (String.mk ("us".data.take 2)))) ∧
    countryFlag (some "us")
        = String.mk (("us".data.take 2).map
            (fun ch => Char.ofNat (0x1F1E6 + (Char.toUpper ch).toNat - 65))) :=
  countryFlag_first_two_upper.2.2 "us" (by decide)

/-! ## `setConfig` (card lines 43–50)

`setConfig` inspects an arbitrary JavaScript value, so JavaScript values
are modelled by an inductive type with the card-relevant coercions:
truthiness, property access, `Number(...)` (with `none` standing for NaN;
numeric strings are approximated by integer-literal parsing and non-empty
arrays by NaN), and `Array.isArray`.  A thrown error is an
`Except.error`. -/

/-- A JavaScript value, as far as `setConfig` inspects one. -/
inductive JVal where
  | jnull
  | undef
  | bool : Bool → JVal
  | num : Int → JVal
  | nan
  | str : String → JVal
  | arr : List JVal → JVal
  | obj : List (String × JVal) → JVal
deriving Repr

/-- JavaScript truthiness: `null`, `undefined`, `false`, `±0`, `NaN` and
the empty string are falsy; arrays and objects are always truthy. -/
def truthy : JVal → Bool
  | JVal.jnull => false
  | JVal.undef => false
  | JVal.bool b => b
  | JVal.num n => decide (n ≠ 0)
  | JVal.nan => false
  | JVal.str s => decide (s ≠ "")
  | JVal.arr _ => true
  | JVal.obj _ => true

/-- Property access `v[k]`: `undefined` unless `v` is an object with the
key. -/
def getProp (v : JVal) (k : String) : JVal :=
  match v with
  | JVal.obj fields =>
    match fields.find? (fun p => p.1 == k) with
    | some p => p.2
    | none => JVal.undef
  | _ => JVal.undef

/-- `Number(v)`, with `none` for NaN. -/
def jsToNumber : JVal → Option Int
  | JVal.jnull => some 0
  | JVal.undef => none
  | JVal.bool b => some (if b then 1 else 0)
  | JVal.num n => some n
  | JVal.nan => none
  | JVal.str s => if s = "" then some 0 else s.toInt?
  | JVal.arr [] => some 0
  | JVal.arr _ => none
  | JVal.obj _ => none

/-- The configuration object `setConfig` stores in `this._config`. -/
structure JsCardConfig where
  title : JVal
  max_events : Int
  severity_filter : List JVal
deriving Repr

/-- `setConfig(config)`: throw on a falsy argument, otherwise store the
normalized configuration (`title || 'Security Sentinel'`,
`Number(max_events) || 10`, `Array.isArray(severity_filter) ? ... : []`). -/
def setConfig (config : JVal) : Except String JsCardConfig :=
  if truthy config = false then Except.error "Invalid configuration"
  else
    Except.ok
      { title :=
          if truthy (getProp config "title") then getProp config "title"
          else JVal.str "Security Sentinel"
        max_events :=
          match jsToNumber (getProp config "max_events") with
          | some n => if n = 0 then 10 else n
          | none => 10
        severity_filter :=
          match getProp config "severity_filter" with
          | JVal.arr l => l
          | _ => [] }

/-- C9 (counterexample): the claim says `setConfig` throws exactly on
`null` or `undefined`, but the guard `if (!config) throw ...` also throws
on every other falsy value, for example on the boolean `false` (likewise
`0`, `NaN`, `""`). -/
theorem setConfig_falsy_counterexample :
    setConfig (JVal.bool false) = Except.error "Invalid configuration" ∧
    JVal.bool false ≠ JVal.jnull ∧ JVal.bool false ≠ JVal.undef := by
  refine ⟨rfl, ?_, ?_⟩ <;> intro h <;> exact JVal.noConfusion h

/-- C9 (amended): `setConfig` throws "Invalid configuration" exactly when
its argument is falsy (`null`, `undefined`, `false`, `0`, `NaN`, or the
empty string); for every truthy argument it stores a normalized
configuration in which `title` defaults to `"Security Sentinel"` when
`config.title` is absent or falsy, `max_events` equals
`Number(config.max_events)` when that conversion yields a non-zero number
and `10` when it yields `0` or NaN (so also when absent or not numeric),
and `severity_filter` equals `config.severity_filter` when it is an array
and the empty list otherwise. -/
theorem setConfig_normalizes (config : JVal) :
    (setConfig config = Except.error "Invalid configuration" ↔
      truthy config = false) ∧
    (truthy config = true →
      ∃ c, setConfig config = Except.ok c ∧
        c.title = (if truthy (getProp config "title") then
            getProp config "title" else JVal.str "Security Sentinel") ∧
        (∀ n : Int, jsToNumber (getProp config "max_events") = some n →
          n ≠ 0 → c.max_events = n) ∧
        ((jsToNumber (getProp config "max_events") = some 0 ∨
          jsToNumber (getProp config "max_events") = none) →
          c.max_events = 10) ∧
        (∀ l, getProp config "severity_filter" = JVal.arr l →
          c.severity_filter = l) ∧
        ((∀ l, getProp config "severity_filter" ≠ JVal.arr l) →
          c.severity_filter = [])) := by
  constructor
  · unfold setConfig
    cases htc : truthy config <;> simp
  · intro htc
    have hok : setConfig config
        = Except.ok
            { title :=
                if truthy (getProp config "title") then getProp config "title"
                else JVal.str "Security Sentinel"
              max_events :=
                match jsToNumber (getProp config "max_events") with
                | some n => if n = 0 then 10 else n
                | none => 10
              severity_filter :=
                match getProp config "severity_filter" with
                | JVal.arr l => l
                | _ => [] } := by
      unfold setConfig
      rw [htc]
      simp
    refine ⟨_, hok, rfl, ?_, ?_, ?_, ?_⟩
    · intro n hn hnz
      show (match jsToNumber (getProp config "max_events") with
        | some n => if n = 0 then 10 else n
        | none => 10) = n
      rw [hn]
      simp [hnz]
    · intro h10
      show (match jsToNumber (getProp config "max_events") with
        | some n => if n = 0 then 10 else n
        | none => 10) = (10 : Int)
      rcases h10 with h | h <;> simp [h]
    · intro l hl
      show (match getProp config "severity_filter" with
        | JVal.arr l => l
        | _ => []) = l
      rw [hl]
    · intro hno
      show (match getProp config "severity_filter" with
        | JVal.arr l => l
        | _ => []) = []
      cases hgp : getProp config "severity_filter" <;>
        first
          | rfl
          | exact absurd hgp (hno _)

/-- A sample truthy configuration object for the witness. -/
def sampleConfig : JVal :=
  JVal.obj [("max_events", JVal.num 5),
    ("severity_filter", JVal.arr [JVal.str "high"])]

theorem setConfig_normalizes_witness :
    ∃ c, setConfig sampleConfig = Except.ok c ∧
      c.title = (if truthy (getProp sampleConfig "title") then
          getProp sampleConfig "title" else JVal.str "Security Sentinel") ∧
      (∀ n : Int, jsToNumber (getProp sampleConfig "max_events") = some n →
        n ≠ 0 → c.max_events = n) ∧
      ((jsToNumber (getProp sampleConfig "max_events") = some 0 ∨
        jsToNumber (getProp sampleConfig "max_events") = none) →
        c.max_events = 10) ∧
      (∀ l, getProp sampleConfig "severity_filter" = JVal.arr l →
        c.severity_filter = l) ∧
      ((∀ l, getProp sampleConfig "severity_filter" ≠ JVal.arr l) →
        c.severity_filter = []) :=
  (setConfig_normalizes sampleConfig).2 rfl

end SecuritySentinel
